import Mathlib

/-!
Verification of the page-batch OCR extraction pipeline of the
PDF-to-JSON multi-agent processing repository.

The embedding translates the Python sources:
  - `ocr-service/ocr_service/ocr_api.py` (extract_text_from_pdf_bytes,
    _process_page_hybrid, _process_with_doctr, _init_doctr, _init_pix2text),
  - `markdown_formatter/formatter.py` (format_to_markdown),
  - `app/main_alternative.py` (ocr_image_bytes, pdf_to_markdown).

Python strings are modelled as Lean `String`; `str.strip()` is modelled by
`pyStrip`.  External library calls (PyMuPDF page access, rasterisation,
the OCR backends and the remote HTTP endpoint) are modelled as explicit
per-page / per-call behaviours: a fallible call is an `Except String`
value carried by the page, matching the places where the Python code
wraps (or fails to wrap) the call in `try`/`except`.
-/

set_option autoImplicit false

namespace OcrPipeline

/-! ### Python string helpers -/

/-- The whitespace test used by Python's `str.strip()` (modelled by
`Char.isWhitespace`). -/
def wsb (c : Char) : Bool := c.isWhitespace

/-- Left strip on character lists: drop leading whitespace. -/
def lstripL (l : List Char) : List Char := l.dropWhile wsb

/-- Right strip on character lists: drop trailing whitespace. -/
def rstripL : List Char → List Char
  | [] => []
  | c :: cs =>
    match rstripL cs with
    | [] => if wsb c then [] else [c]
    | r => c :: r

/-- Model of Python's `str.strip()` on character lists. -/
def pyStripL (l : List Char) : List Char := rstripL (lstripL l)

/-- Model of Python's `str.strip()`. -/
def pyStrip (s : String) : String := ⟨pyStripL s.data⟩

/-- A string has no leading and no trailing whitespace. -/
def noEdgeWS (s : String) : Bool :=
  (s.data.head?.all fun c => !wsb c) && (s.data.getLast?.all fun c => !wsb c)

/-- `leadMatch needle hay` : `hay` starts with `needle`. -/
def leadMatch : List Char → List Char → Bool
  | [], _ => true
  | _ :: _, [] => false
  | a :: as, b :: bs => a = b && leadMatch as bs

/-- `hasSub needle hay` : `needle` occurs as a contiguous substring of `hay`. -/
def hasSub (needle : List Char) : List Char → Bool
  | [] => leadMatch needle []
  | b :: rest => leadMatch needle (b :: rest) || hasSub needle rest

/-! ### Lemmas about stripping -/

theorem head?_lstripL_not_ws {l : List Char} {c : Char}
    (h : (lstripL l).head? = some c) : wsb c = false := by
  induction l with
  | nil => simp [lstripL] at h
  | cons a as ih =>
    by_cases hw : wsb a
    · exact ih (by simpa [lstripL, List.dropWhile_cons, hw] using h)
    · simp [lstripL, List.dropWhile_cons, hw] at h
      simpa [← h] using hw

theorem getLast?_rstripL_not_ws {l : List Char} {c : Char}
    (h : (rstripL l).getLast? = some c) : wsb c = false := by
  induction l with
  | nil => simp [rstripL] at h
  | cons a as ih =>
    rw [rstripL] at h
    rcases hr : rstripL as with _ | ⟨b, bs⟩
    · rw [hr] at h
      by_cases hw : wsb a
      · simp [hw] at h
      · simp [hw] at h
        simpa [← h] using hw
    · rw [hr] at h
      rw [List.getLast?_cons_cons] at h
      exact ih (hr ▸ h)

theorem head?_rstripL {l : List Char} {c : Char}
    (h : (rstripL l).head? = some c) : l.head? = some c := by
  cases l with
  | nil => simp [rstripL] at h
  | cons a as =>
    rw [rstripL] at h
    rcases hr : rstripL as with _ | ⟨b, bs⟩
    · rw [hr] at h
      by_cases hw : wsb a
      · simp [hw] at h
      · simp [hw] at h
        simp [h]
    · rw [hr] at h
      simp at h
      simp [h]

theorem noEdgeWS_pyStrip (s : String) : noEdgeWS (pyStrip s) = true := by
  rw [noEdgeWS, Bool.and_eq_true]
  refine ⟨?_, ?_⟩
  · rcases hh : (pyStrip s).data.head? with _ | c
    · simp
    · have : wsb c = false := by
        have hh' : (rstripL (lstripL s.data)).head? = some c := hh
        exact head?_lstripL_not_ws (head?_rstripL hh')
      simp [this]
  · rcases hh : (pyStrip s).data.getLast? with _ | c
    · simp
    · have : wsb c = false := getLast?_rstripL_not_ws (l := lstripL s.data) hh
      simp [this]

theorem lstripL_eq_self {l : List Char}
    (h : l.head?.all (fun c => !wsb c) = true) : lstripL l = l := by
  cases l with
  | nil => rfl
  | cons a as =>
    simp at h
    simp [lstripL, List.dropWhile_cons, h]

theorem rstripL_eq_self {l : List Char}
    (h : l.getLast?.all (fun c => !wsb c) = true) : rstripL l = l := by
  induction l with
  | nil => rfl
  | cons a as ih =>
    cases as with
    | nil =>
      simp at h
      simp [rstripL, h]
    | cons b bs =>
      rw [List.getLast?_cons_cons] at h
      have h2 := ih h
      rw [rstripL, h2]

/-- A string with no leading and no trailing whitespace is unchanged by
`pyStrip` (the idempotence direction actually used below). -/
theorem pyStrip_eq_self {s : String} (h : noEdgeWS s = true) : pyStrip s = s := by
  rw [noEdgeWS, Bool.and_eq_true] at h
  obtain ⟨h1, h2⟩ := h
  cases s with
  | mk data =>
    show (⟨pyStripL data⟩ : String) = ⟨data⟩
    rw [pyStripL, lstripL_eq_self h1, rstripL_eq_self h2]

/-! ### Python `range` and the batch scheduler

`extract_text_from_pdf_bytes` iterates
`for batch_start in range(0, total_pages, BATCH_SIZE)` and, inside each
batch, `for page_num in range(batch_start, batch_end)` with
`batch_end = min(batch_start + BATCH_SIZE, total_pages)`.
-/

/-- Batch processing configuration of `ocr_api.py`: `BATCH_SIZE = 5`. -/
def BATCH_SIZE : Nat := 5

/-- Python `range(a, b)` (step 1). -/
def pyRange1 (a b : Nat) : List Nat := List.range' a (b - a)

/-- Iteration of Python `range(cur, total, step)` with explicit fuel
(the fuel is an upper bound on the number of iterations; for a positive
step, `total + 1` always suffices from `cur = 0`). -/
def batchStartsGo (total step : Nat) : Nat → Nat → List Nat
  | 0, _ => []
  | f + 1, cur => if cur < total then cur :: batchStartsGo total step f (cur + step) else []

/-- Python `range(0, total, step)`: the batch start offsets. -/
def batchStarts (total step : Nat) : List Nat := batchStartsGo total step (total + 1) 0

/-- The batches of page indices produced by the scheduler loop of
`extract_text_from_pdf_bytes`: for each `batch_start`, the pages
`range(batch_start, min(batch_start + b, n))`. -/
def batchesOf (n b : Nat) : List (List Nat) :=
  (batchStarts n b).map fun s => pyRange1 s (min (s + b) n)

/-- Number of iterations of `range(cur, total, step)` remaining from `cur`. -/
def iterCount (total step cur : Nat) : Nat := (total - cur + step - 1) / step

theorem iterCount_zero {total step cur : Nat} (h : total ≤ cur) (hb : 0 < step) :
    iterCount total step cur = 0 := by
  rw [iterCount]
  have h1 : total - cur = 0 := by omega
  rw [h1]
  exact Nat.div_eq_of_lt (by omega)

theorem iterCount_succ {total step cur : Nat} (hb : 0 < step) (h : cur < total) :
    iterCount total step cur = iterCount total step (cur + step) + 1 := by
  rw [iterCount, iterCount]
  have h1 : total - cur + step - 1 = (total - cur - 1) + step := by omega
  rw [h1, Nat.add_div_right _ hb]
  congr 1
  by_cases h2 : cur + step ≤ total
  · congr 1
    omega
  · have h3 : total - (cur + step) = 0 := by omega
    rw [h3]
    rw [Nat.div_eq_of_lt (by omega), Nat.div_eq_of_lt (by omega)]

theorem batchStartsGo_eq {total step : Nat} (hb : 0 < step) :
    ∀ fuel cur, iterCount total step cur ≤ fuel →
      batchStartsGo total step fuel cur = List.range' cur (iterCount total step cur) step := by
  intro fuel
  induction fuel with
  | zero =>
    intro cur hF
    have h0 : iterCount total step cur = 0 := Nat.le_zero.mp hF
    rw [h0, batchStartsGo]
    rfl
  | succ f ih =>
    intro cur hF
    rw [batchStartsGo]
    by_cases h : cur < total
    · have hs := iterCount_succ hb h
      have hF2 : iterCount total step (cur + step) ≤ f := by omega
      rw [if_pos h, hs, List.range'_succ, ih (cur + step) hF2]
    · rw [if_neg h, iterCount_zero (by omega) hb]
      rfl

theorem iterCount_from_zero_le {total step : Nat} (hb : 0 < step) :
    iterCount total step 0 ≤ total + 1 := by
  rw [iterCount, Nat.sub_zero]
  rcases Nat.eq_zero_or_pos total with h | h
  · subst h
    rw [Nat.zero_add, Nat.div_eq_of_lt (by omega)]
    omega
  · have h1 : total + step - 1 = (total - 1) + step := by omega
    rw [h1, Nat.add_div_right _ hb]
    have := Nat.div_le_self (total - 1) step
    omega

theorem batchStarts_eq {n b : Nat} (hb : 0 < b) :
    batchStarts n b = List.range' 0 ((n + b - 1) / b) b := by
  rw [batchStarts, batchStartsGo_eq hb (n + 1) 0 (iterCount_from_zero_le hb)]
  rw [iterCount, Nat.sub_zero]

theorem batchesOf_length {n b : Nat} (hb : 0 < b) :
    (batchesOf n b).length = (n + b - 1) / b := by
  rw [batchesOf, List.length_map, batchStarts_eq hb, List.length_range']

theorem batchesOf_flatten_go {n b : Nat} (hb : 0 < b) :
    ∀ fuel cur, iterCount n b cur ≤ fuel →
      ((batchStartsGo n b fuel cur).map fun s => pyRange1 s (min (s + b) n)).flatten =
        List.range' cur (n - cur) := by
  intro fuel
  induction fuel with
  | zero =>
    intro cur hF
    have h0 : iterCount n b cur = 0 := Nat.le_zero.mp hF
    have hc : n ≤ cur := by
      by_contra hc
      have := iterCount_succ hb (by omega : cur < n)
      omega
    rw [batchStartsGo]
    have h1 : n - cur = 0 := by omega
    simp [h1]
  | succ f ih =>
    intro cur hF
    rw [batchStartsGo]
    by_cases h : cur < n
    · have hs := iterCount_succ hb h
      have hF2 : iterCount n b (cur + b) ≤ f := by omega
      rw [if_pos h, List.map_cons, List.flatten_cons, ih (cur + b) hF2]
      rw [pyRange1]
      by_cases h2 : cur + b ≤ n
      · have hm : min (cur + b) n = cur + b := by omega
        rw [hm]
        have h3 : cur + b - cur = b := by omega
        rw [h3]
        have := List.range'_append_1 cur b (n - (cur + b))
        rw [this]
        congr 1
        omega
      · have hm : min (cur + b) n = n := by omega
        rw [hm]
        have h3 : n - (cur + b) = 0 := by omega
        rw [h3]
        simp
    · rw [if_neg h]
      have h1 : n - cur = 0 := by omega
      simp [h1]

theorem batchesOf_flatten {n b : Nat} (hb : 0 < b) :
    (batchesOf n b).flatten = List.range n := by
  simp only [batchesOf, batchStarts]
  rw [batchesOf_flatten_go hb (n + 1) 0 (iterCount_from_zero_le hb)]
  rw [Nat.sub_zero, List.range_eq_range']

theorem batchesOf_get {n b : Nat} (hb : 0 < b) (i : Nat)
    (h : i < (batchesOf n b).length) :
    (batchesOf n b).get ⟨i, h⟩ = pyRange1 (b * i) (min (b * i + b) n) := by
  show ((batchStarts n b).map fun s => pyRange1 s (min (s + b) n)).get ⟨i, h⟩ = _
  rw [List.get_eq_getElem, List.getElem_map]
  have h' : i < (batchStarts n b).length := by
    have := h
    rw [batchesOf, List.length_map] at this
    exact this
  have hv : (batchStarts n b)[i] = b * i := by
    rw [List.getElem_of_eq (batchStarts_eq hb) h', List.getElem_range']
    omega
  rw [hv]

/-- The ceiling-count formula in terms of quotient and remainder. -/
theorem ceilCount_eq {n b : Nat} (hb : 0 < b) :
    (n + b - 1) / b = if n % b = 0 then n / b else n / b + 1 := by
  have hdm := Nat.div_add_mod n b
  set q := n / b with hq
  set r := n % b with hr
  have hrb : r < b := Nat.mod_lt _ hb
  by_cases h0 : r = 0
  · rw [if_pos h0]
    have h1 : n + b - 1 = (b - 1) + b * q := by omega
    rw [h1, Nat.add_mul_div_left _ _ hb, Nat.div_eq_of_lt (by omega)]
    omega
  · rw [if_neg h0]
    have hbq : b * (q + 1) = b * q + b := by ring
    have h1 : n + b - 1 = (r - 1) + b * (q + 1) := by omega
    rw [h1, Nat.add_mul_div_left _ _ hb, Nat.div_eq_of_lt (by omega)]
    omega

theorem batchesOf_size {n b : Nat} (hb : 0 < b) (i : Nat)
    (h : i < (batchesOf n b).length) :
    ((batchesOf n b).get ⟨i, h⟩).length =
      if i + 1 < (batchesOf n b).length then b
      else if n % b = 0 then b else n % b := by
  rw [batchesOf_get hb i h, pyRange1, List.length_range']
  rw [batchesOf_length hb] at h ⊢
  have hdm := Nat.div_add_mod n b
  set q := n / b with hq
  set r := n % b with hr
  have hrb : r < b := Nat.mod_lt _ hb
  have hc := ceilCount_eq (n := n) hb
  rw [← hq, ← hr] at hc
  have hbi : b * (i + 1) = b * i + b := by ring
  by_cases hlast : i + 1 < (n + b - 1) / b
  · rw [if_pos hlast]
    have hle : b * (i + 1) ≤ n := by
      by_cases h0 : r = 0
      · rw [hc, if_pos h0] at hlast
        have h2 : i + 1 ≤ q := by omega
        have := Nat.mul_le_mul_left (k := b) h2
        omega
      · rw [hc, if_neg h0] at hlast
        have h2 : i + 1 ≤ q := by omega
        have := Nat.mul_le_mul_left (k := b) h2
        omega
    omega
  · rw [if_neg hlast]
    by_cases h0 : r = 0
    · rw [if_pos h0]
      rw [hc, if_pos h0] at h hlast
      have hi : i + 1 = q := by omega
      rw [hi] at hbi
      omega
    · rw [if_neg h0]
      rw [hc, if_neg h0] at h hlast
      have hi : i = q := by omega
      rw [hi] at hbi ⊢
      omega

/-! ### The OCR pipeline of `ocr_service/ocr_api.py`

External behaviour is made explicit:
  * `Env` fixes whether the lazy initialisations `_init_doctr` /
    `_init_pix2text` succeed when attempted (process-wide, deterministic);
  * each page carries the outcome of the external calls made on it:
    `page.get_text()` (which the code calls outside any `try`), the
    rasterisation steps of `_process_page_hybrid` (pixmap, PNG encode,
    PIL open, resize — all inside the page-level `try`),
    `pix2text_model.recognize` (the per-call result, collapsing the
    `isinstance` juggling into the final string), and the DocTR run
    (the `pages → blocks → lines → words` structure it returns).
An `Except String α` value models a call that either returns or raises. -/

deriving instance DecidableEq for Except

/-- Whether the two lazy model initialisations succeed when attempted. -/
structure Env where
  doctrInitOk : Bool
  pixInitOk : Bool
deriving DecidableEq

/-- The module-level mutable state of `ocr_api.py`:
`doctr_model`/`DOCTR_AVAILABLE` and `pix2text_model`/`PIX2TEXT_AVAILABLE`
(a model handle is abstracted to the Boolean `… is not None`). -/
structure OcrState where
  doctrModel : Bool
  doctrAvail : Bool
  pixModel : Bool
  pixAvail : Bool
deriving DecidableEq

/-- Initial module state: both flags `False`, both models `None`. -/
def initState : OcrState := ⟨false, false, false, false⟩

/-- `_init_doctr`: returns at once if the model is loaded; otherwise the
attempt either sets model and flag, or (on exception) clears both. -/
def initDoctr (env : Env) (s : OcrState) : OcrState :=
  if s.doctrModel then s
  else if env.doctrInitOk then { s with doctrModel := true, doctrAvail := true }
  else { s with doctrModel := false, doctrAvail := false }

/-- `_init_pix2text`: same shape as `_init_doctr`. -/
def initPix (env : Env) (s : OcrState) : OcrState :=
  if s.pixModel then s
  else if env.pixInitOk then { s with pixModel := true, pixAvail := true }
  else { s with pixModel := false, pixAvail := false }

/-- Per-page external behaviour. -/
structure PageB where
  /-- `page.get_text()` — returns the embedded text or raises. -/
  getText : Except String String
  /-- the rasterisation steps (`get_pixmap`, `tobytes`, `Image.open`,
  resize) — succeed or raise with a message. -/
  raster : Except String Unit
  /-- `pix2text_model.recognize(image, resized_shape=800)` followed by the
  text extraction — the resulting string, or the raised message. -/
  pixRec : Except String String
  /-- the DocTR run `doctr_model([img_array])` — the recognised
  `pages → blocks → lines → words` structure, or the raised message. -/
  doctrRun : Except String (List (List (List (List String))))

/-- A page behaviour used for out-of-range lookups (never reached for
indices produced by the batch scheduler). -/
def defaultPage : PageB := ⟨.ok "", .ok (), .ok "", .ok []⟩

/-- `isOkE e` : the call returned normally. -/
def isOkE {α : Type} (e : Except String α) : Bool :=
  match e with
  | .ok _ => true
  | .error _ => false

/-- One entry of the list returned by `extract_text_from_pdf_bytes`:
the dict `{"page": …, "text": …, "status": …}` (it has no `"error"` key;
`error` models `result.get("error", …)` lookups by downstream code). -/
structure PageResult where
  page : Nat
  text : String
  status : String
  error : Option String
deriving DecidableEq

/-- The `results.append({...})` of lines 223–227 of `ocr_api.py`:
`page = page_num + 1`, `text = text.strip()`,
`status = "success" if text.strip() else "empty"`; no `error` key. -/
def mkResult (pageNum : Nat) (text : String) : PageResult :=
  { page := pageNum + 1
    text := pyStrip text
    status := if pyStrip text = "" then "empty" else "success"
    error := none }

/-- `_process_with_doctr` lines 144–156: per line join words with single
spaces, keep lines whose join strips non-empty, join lines with newlines,
strip the result. -/
def doctrText (d : List (List (List (List String)))) : String :=
  let lines := (d.map fun pg =>
    (pg.map fun blk =>
      (blk.map fun ln => String.intercalate " " ln).filter
        fun lt => pyStrip lt ≠ "").flatten).flatten
  pyStrip (String.intercalate "\n" lines)

/-- `_process_with_doctr`: the DocTR text on success, the
`[DocTR Error: …]` marker when the run raises (caught in the function). -/
def processWithDoctr (b : PageB) : String :=
  match b.doctrRun with
  | .ok d => doctrText d
  | .error e => "[DocTR Error: " ++ e ++ "]"

/-- `_process_page_hybrid` lines 79–131: rasterise inside a `try`; on a
raster exception return the `[OCR Error: …]` marker (no `gc.collect()`).
Otherwise run Pix2Text when available (falling back to DocTR if its call
raises) or DocTR directly, call `gc.collect()` (counted as the second
component) and return the stripped text. -/
def processPageHybrid (pixOn : Bool) (b : PageB) : String × Nat :=
  match b.raster with
  | .error e => ("[OCR Error: " ++ e ++ "]", 0)
  | .ok _ =>
    let text :=
      if pixOn then
        match b.pixRec with
        | .ok t => t
        | .error _ => processWithDoctr b
      else processWithDoctr b
    (pyStrip text, 1)

/-- Outcome of processing one page inside the batch loop. -/
structure StepOut where
  r : Except String PageResult
  st : OcrState
  g : Nat
  o : Bool
deriving DecidableEq

/-- The body of the inner loop of `extract_text_from_pdf_bytes`
(lines 201–227): probe `page.get_text()` (unprotected — an exception
escapes); if the stripped text is empty, lazily initialise the models,
then either run the hybrid OCR (when DocTR is available) or fall back to
the literal unavailability marker; finally append the result dict.
`g` counts `gc.collect()` calls, `o` records whether the OCR branch
(model initialisation and backends) was entered. -/
def runPage (env : Env) (b : PageB) (pageNum : Nat) (s : OcrState) : StepOut :=
  match b.getText with
  | .error e => ⟨.error e, s, 0, false⟩
  | .ok t0 =>
    if pyStrip t0 = "" then
      let s1 := if s.doctrModel then s else initDoctr env s
      let s2 := if s1.pixModel then s1 else initPix env s1
      if s2.doctrAvail && s2.doctrModel then
        let p := processPageHybrid (s2.pixAvail && s2.pixModel) b
        ⟨.ok (mkResult pageNum p.1), s2, p.2, true⟩
      else
        ⟨.ok (mkResult pageNum "[OCR not available - Models failed to initialize]"), s2, 0, true⟩
    else ⟨.ok (mkResult pageNum t0), s, 0, false⟩

/-- Accumulated outcome of a run of pages / batches. -/
structure BatchOut where
  r : Except String (List PageResult)
  st : OcrState
  g : Nat
  o : Nat
deriving DecidableEq

/-- The inner `for page_num in range(batch_start, batch_end)` loop over
one batch of page indices; an escaping exception aborts the iteration. -/
def runIdxs (env : Env) (pages : List PageB) (idxs : List Nat) (s : OcrState) : BatchOut :=
  match idxs with
  | [] => ⟨.ok [], s, 0, 0⟩
  | i :: rest =>
    match runPage env (pages.getD i defaultPage) i s with
    | ⟨.error e, s1, g1, o1⟩ => ⟨.error e, s1, g1, o1.toNat⟩
    | ⟨.ok r, s1, g1, o1⟩ =>
      match runIdxs env pages rest s1 with
      | ⟨.error e, s2, g2, o2⟩ => ⟨.error e, s2, g1 + g2, o1.toNat + o2⟩
      | ⟨.ok rs, s2, g2, o2⟩ => ⟨.ok (r :: rs), s2, g1 + g2, o1.toNat + o2⟩

/-- The outer `for batch_start in range(0, total_pages, BATCH_SIZE)` loop:
process each batch fully, then `gc.collect()` (the `+ 1`), then advance.
An exception escaping from a batch skips the remaining work (including
that batch's `gc.collect()`). -/
def runBatches (env : Env) (pages : List PageB) (bs : List (List Nat)) (s : OcrState) : BatchOut :=
  match bs with
  | [] => ⟨.ok [], s, 0, 0⟩
  | idxs :: rest =>
    match runIdxs env pages idxs s with
    | ⟨.error e, s1, g1, o1⟩ => ⟨.error e, s1, g1, o1⟩
    | ⟨.ok rs, s1, g1, o1⟩ =>
      match runBatches env pages rest s1 with
      | ⟨.error e, s2, g2, o2⟩ => ⟨.error e, s2, g1 + 1 + g2, o1 + o2⟩
      | ⟨.ok rs2, s2, g2, o2⟩ => ⟨.ok (rs ++ rs2), s2, g1 + 1 + g2, o1 + o2⟩

/-- Observable outcome of `extract_text_from_pdf_bytes`: the returned
list (or the escaped exception), whether `pdf_document.close()` was
executed, and the numbers of `gc.collect()` calls and of pages that
entered the OCR branch. -/
structure ExtractOut where
  result : Except String (List PageResult)
  closed : Bool
  gcCount : Nat
  ocrCount : Nat
deriving DecidableEq

/-- `extract_text_from_pdf_bytes` lines 163–245: open the document
(`openR` is the outcome of `fitz.open`), derive the batches of page
indices, run them, then `pdf_document.close()` — which, with no
`try`/`finally` in the source, is reached only when no exception escaped
the loops. -/
def extract_text_from_pdf_bytes (env : Env) (openR : Except String (List PageB)) : ExtractOut :=
  match openR with
  | .error e => ⟨.error e, false, 0, 0⟩
  | .ok pages =>
    match runBatches env pages (batchesOf pages.length BATCH_SIZE) initState with
    | ⟨.error e, _, g, o⟩ => ⟨.error e, false, g, o⟩
    | ⟨.ok rs, _, g, o⟩ => ⟨.ok rs, true, g, o⟩

/-! ### Stateless characterisation of the per-page outcome

In `ocr_api.py` a model handle is non-`None` exactly when its
initialisation succeeded, so along any run the availability seen by a
page is determined by `Env` alone.  `Inv` captures this reachable-state
invariant and `pageRes`/`pageGc`/`pageOcr` give the state-free per-page
outcome. -/

/-- Invariant of reachable module states. -/
def Inv (env : Env) (s : OcrState) : Prop :=
  s.doctrAvail = s.doctrModel ∧ (s.doctrModel = true → env.doctrInitOk = true) ∧
    s.pixAvail = s.pixModel ∧ (s.pixModel = true → env.pixInitOk = true)

theorem Inv_initState (env : Env) : Inv env initState := by
  refine ⟨rfl, ?_, rfl, ?_⟩ <;> intro h <;> exact absurd h (by decide)

/-- State-free per-page result (valid along reachable states). -/
def pageRes (env : Env) (b : PageB) (pageNum : Nat) : PageResult :=
  match b.getText with
  | .error _ => mkResult pageNum ""
  | .ok t0 =>
    if pyStrip t0 = "" then
      if env.doctrInitOk then mkResult pageNum (processPageHybrid env.pixInitOk b).1
      else mkResult pageNum "[OCR not available - Models failed to initialize]"
    else mkResult pageNum t0

/-- State-free count of `gc.collect()` calls made while processing one
page (the call at line 123 of `_process_page_hybrid`). -/
def pageGc (env : Env) (b : PageB) : Nat :=
  match b.getText with
  | .error _ => 0
  | .ok t0 =>
    if pyStrip t0 = "" then
      if env.doctrInitOk then (processPageHybrid env.pixInitOk b).2 else 0
    else 0

/-- Whether the page enters the OCR branch (model initialisation,
rasterisation, backend calls) instead of the direct-text short-circuit. -/
def pageOcr (b : PageB) : Bool :=
  match b.getText with
  | .error _ => false
  | .ok t0 => if pyStrip t0 = "" then true else false

/-- The module state after processing one page. -/
def stepState (env : Env) (s : OcrState) (b : PageB) : OcrState :=
  match b.getText with
  | .error _ => s
  | .ok t0 =>
    if pyStrip t0 = "" then
      let s1 := if s.doctrModel then s else initDoctr env s
      if s1.pixModel then s1 else initPix env s1
    else s

theorem runPage_err {env : Env} {b : PageB} {i : Nat} {s : OcrState} {e : String}
    (ht : b.getText = .error e) : runPage env b i s = ⟨.error e, s, 0, false⟩ := by
  rw [runPage, ht]

theorem runPage_ok {env : Env} {b : PageB} (i : Nat) {s : OcrState}
    (hInv : Inv env s) {t0 : String} (ht : b.getText = .ok t0) :
    runPage env b i s = ⟨.ok (pageRes env b i), stepState env s b, pageGc env b, pageOcr b⟩ := by
  obtain ⟨h1, h2, h3, h4⟩ := hInv
  rw [runPage, pageRes, pageGc, pageOcr, stepState, ht]
  by_cases hstrip : pyStrip t0 = ""
  · rcases s with ⟨dm, da, pm, pa⟩
    rcases env with ⟨dok, pok⟩
    simp only at h1 h2 h3 h4
    subst h1
    subst h3
    cases da <;> cases pa <;> cases dok <;> cases pok <;>
      simp_all [initDoctr, initPix, hstrip]
  · simp [hstrip]

theorem stepState_inv {env : Env} {s : OcrState} (b : PageB) (hInv : Inv env s) :
    Inv env (stepState env s b) := by
  obtain ⟨h1, h2, h3, h4⟩ := hInv
  rw [stepState]
  rcases ht : b.getText with e | t0
  · exact ⟨h1, h2, h3, h4⟩
  · by_cases hstrip : pyStrip t0 = ""
    · rcases s with ⟨dm, da, pm, pa⟩
      rcases env with ⟨dok, pok⟩
      simp only at h1 h2 h3 h4
      subst h1
      subst h3
      cases da <;> cases pa <;> cases dok <;> cases pok <;>
        simp_all [Inv, initDoctr, initPix, hstrip]
    · simp only [if_neg hstrip]
      exact ⟨h1, h2, h3, h4⟩

theorem exists_ok {α : Type} {e : Except String α} (h : isOkE e = true) :
    ∃ a, e = .ok a := by
  cases e with
  | ok a => exact ⟨a, rfl⟩
  | error e => simp [isOkE] at h

theorem runIdxs_ok {env : Env} {pages : List PageB}
    (hA : ∀ i : Nat, isOkE (pages.getD i defaultPage).getText = true) :
    ∀ (idxs : List Nat) (s : OcrState), Inv env s →
      (runIdxs env pages idxs s).r =
          .ok (idxs.map fun i => pageRes env (pages.getD i defaultPage) i) ∧
        (runIdxs env pages idxs s).g =
          (idxs.map fun i => pageGc env (pages.getD i defaultPage)).sum ∧
        (runIdxs env pages idxs s).o =
          (idxs.map fun i => (pageOcr (pages.getD i defaultPage)).toNat).sum ∧
        Inv env (runIdxs env pages idxs s).st := by
  intro idxs
  induction idxs with
  | nil =>
    intro s hInv
    exact ⟨rfl, rfl, rfl, hInv⟩
  | cons i rest ih =>
    intro s hInv
    obtain ⟨t0, ht⟩ := exists_ok (hA i)
    have hp := runPage_ok i hInv ht
    have hInv1 : Inv env (stepState env s (pages.getD i defaultPage)) :=
      stepState_inv _ hInv
    obtain ⟨ih1, ih2, ih3, ih4⟩ := ih (stepState env s (pages.getD i defaultPage)) hInv1
    rcases hrec : runIdxs env pages rest (stepState env s (pages.getD i defaultPage))
      with ⟨r2, s2, g2, o2⟩
    rw [hrec] at ih1 ih2 ih3 ih4
    simp only at ih1 ih2 ih3 ih4
    subst ih1
    rw [runIdxs, hp]
    dsimp only
    rw [hrec]
    dsimp only
    refine ⟨by simp, ?_, ?_, ih4⟩
    · simp only [List.map_cons, List.sum_cons, ih2]
    · simp only [List.map_cons, List.sum_cons, ih3]

theorem runBatches_ok {env : Env} {pages : List PageB}
    (hA : ∀ i : Nat, isOkE (pages.getD i defaultPage).getText = true) :
    ∀ (bs : List (List Nat)) (s : OcrState), Inv env s →
      (runBatches env pages bs s).r =
          .ok ((bs.map fun idxs =>
            idxs.map fun i => pageRes env (pages.getD i defaultPage) i).flatten) ∧
        (runBatches env pages bs s).g =
          bs.length + (bs.map fun idxs =>
            (idxs.map fun i => pageGc env (pages.getD i defaultPage)).sum).sum ∧
        (runBatches env pages bs s).o =
          (bs.map fun idxs =>
            (idxs.map fun i => (pageOcr (pages.getD i defaultPage)).toNat).sum).sum ∧
        Inv env (runBatches env pages bs s).st := by
  intro bs
  induction bs with
  | nil =>
    intro s hInv
    exact ⟨rfl, rfl, rfl, hInv⟩
  | cons idxs rest ih =>
    intro s hInv
    obtain ⟨hb1, hb2, hb3, hb4⟩ := runIdxs_ok hA idxs s hInv
    rcases hidx : runIdxs env pages idxs s with ⟨r1, s1, g1, o1⟩
    rw [hidx] at hb1 hb2 hb3 hb4
    simp only at hb1 hb2 hb3 hb4
    subst hb1
    obtain ⟨ih1, ih2, ih3, ih4⟩ := ih s1 hb4
    rcases hrec : runBatches env pages rest s1 with ⟨r2, s2, g2, o2⟩
    rw [hrec] at ih1 ih2 ih3 ih4
    simp only at ih1 ih2 ih3 ih4
    subst ih1
    rw [runBatches, hidx]
    dsimp only
    rw [hrec]
    dsimp only
    refine ⟨by simp, ?_, ?_, ih4⟩
    · simp only [List.map_cons, List.sum_cons, List.length_cons, hb2, ih2]
      omega
    · simp only [List.map_cons, List.sum_cons, hb3, ih3]

/-- The list `extract_text_from_pdf_bytes` returns when no exception
escapes: one `pageRes` per page index. -/
def extractRes (env : Env) (pages : List PageB) : List PageResult :=
  (List.range pages.length).map fun i => pageRes env (pages.getD i defaultPage) i

/-- Total number of `gc.collect()` calls on a normal run. -/
def extractGc (env : Env) (pages : List PageB) : Nat :=
  (batchesOf pages.length BATCH_SIZE).length +
    ((List.range pages.length).map fun i => pageGc env (pages.getD i defaultPage)).sum

/-- Total number of pages entering the OCR branch on a normal run. -/
def extractOcr (pages : List PageB) : Nat :=
  ((List.range pages.length).map fun i => (pageOcr (pages.getD i defaultPage)).toNat).sum

theorem getD_isOk {pages : List PageB}
    (hA : ∀ b ∈ pages, isOkE b.getText = true) :
    ∀ i : Nat, isOkE (pages.getD i defaultPage).getText = true := by
  intro i
  by_cases h : i < pages.length
  · have hm : pages.getD i defaultPage ∈ pages := by
      rw [List.getD_eq_getElem?_getD, List.getElem?_eq_getElem h]
      exact List.getElem_mem h
    exact hA _ hm
  · have hd : pages.getD i defaultPage = defaultPage := by
      rw [List.getD_eq_getElem?_getD, List.getElem?_eq_none (by omega)]
      rfl
    rw [hd]
    rfl

/-- Master lemma: when `page.get_text()` raises on no page (the
spec's contract for the direct-text prober), extraction returns normally
with one result per page, the document closed, and the stated resource
counts. -/
theorem extract_ok {env : Env} {pages : List PageB}
    (hA : ∀ b ∈ pages, isOkE b.getText = true) :
    extract_text_from_pdf_bytes env (.ok pages) =
      ⟨.ok (extractRes env pages), true, extractGc env pages, extractOcr pages⟩ := by
  have hA' := getD_isOk hA
  obtain ⟨hr1, hr2, hr3, _⟩ :=
    runBatches_ok hA' (batchesOf pages.length BATCH_SIZE) initState (Inv_initState env)
  rcases hrb : runBatches env pages (batchesOf pages.length BATCH_SIZE) initState
    with ⟨r, st, g, o⟩
  rw [hrb] at hr1 hr2 hr3
  simp only at hr1 hr2 hr3
  subst hr1
  have hflat := batchesOf_flatten (n := pages.length) (b := BATCH_SIZE) (by decide)
  have hjoin : ((batchesOf pages.length BATCH_SIZE).map fun idxs =>
      idxs.map fun i => pageRes env (pages.getD i defaultPage) i).flatten =
      extractRes env pages := by
    rw [← List.map_flatten, hflat, extractRes]
  have hsum : ∀ (f : Nat → Nat),
      ((batchesOf pages.length BATCH_SIZE).map fun idxs => (idxs.map f).sum).sum =
        ((List.range pages.length).map f).sum := by
    intro f
    have h1 : ((batchesOf pages.length BATCH_SIZE).map fun idxs => (idxs.map f).sum) =
        ((batchesOf pages.length BATCH_SIZE).map (List.map f)).map List.sum := by
      rw [List.map_map]
      rfl
    rw [h1, ← List.sum_flatten, ← List.map_flatten, hflat]
  rw [extract_text_from_pdf_bytes, hrb]
  dsimp only
  rw [hjoin, hr2, hr3, extractGc, extractOcr, hsum, hsum]

/-! ### Shape lemmas for per-page results -/

/-- A default result used only for `getD` lookups in statements. -/
def dummyResult : PageResult := mkResult 0 ""

theorem pageRes_page (env : Env) (b : PageB) (i : Nat) :
    (pageRes env b i).page = i + 1 := by
  rw [pageRes]
  rcases b.getText with e | t0
  · rfl
  · by_cases hs : pyStrip t0 = "" <;> by_cases hd : env.doctrInitOk <;>
      simp [hs, hd, mkResult]

theorem noEdgeWS_bracket (a e z : String)
    (ha : a.data.head? = some '[') (hz : z.data.getLast? = some ']') :
    noEdgeWS (a ++ e ++ z) = true := by
  rw [noEdgeWS, Bool.and_eq_true]
  constructor
  · rw [String.data_append, String.data_append]
    rcases hl : a.data with _ | ⟨c, cs⟩
    · rw [hl] at ha
      simp at ha
    · rw [hl] at ha
      have hc : c = '[' := by
        simp at ha
        exact ha
      subst hc
      simp [wsb]
  · rw [String.data_append]
    rcases List.eq_nil_or_concat z.data with hz0 | ⟨l2, c, hc⟩
    · rw [hz0] at hz
      simp at hz
    · rw [List.concat_eq_append] at hc
      rw [hc, List.getLast?_concat] at hz
      have : c = ']' := by injection hz
      subst this
      rw [hc, ← List.append_assoc, List.getLast?_concat]
      simp [wsb]

theorem bracket_ne_empty (a e z : String) (ha : a.data.head? = some '[') :
    a ++ e ++ z ≠ "" := by
  intro h
  have h2 : (a ++ e ++ z).data = ("" : String).data := congrArg String.data h
  rw [String.data_append, String.data_append] at h2
  rcases hl : a.data with _ | ⟨c, cs⟩
  · rw [hl] at ha
    simp at ha
  · rw [hl] at h2
    simp at h2

theorem pyStrip_bracket (a e z : String) (ha : a.data.head? = some '[')
    (hz : z.data.getLast? = some ']') : pyStrip (a ++ e ++ z) = a ++ e ++ z :=
  pyStrip_eq_self (noEdgeWS_bracket a e z ha hz)

theorem noEdgeWS_mkResult (i : Nat) (t : String) :
    noEdgeWS (mkResult i t).text = true := noEdgeWS_pyStrip t

theorem pageRes_direct {env : Env} {b : PageB} {i : Nat} {t0 : String}
    (ht : b.getText = .ok t0) (hs : pyStrip t0 ≠ "") :
    pageRes env b i = ⟨i + 1, pyStrip t0, "success", none⟩ := by
  rw [pageRes, ht]
  simp [hs, mkResult]

theorem pageRes_noBackend {env : Env} {b : PageB} {i : Nat} {t0 : String}
    (ht : b.getText = .ok t0) (hs : pyStrip t0 = "")
    (hd : env.doctrInitOk = false) :
    pageRes env b i =
      ⟨i + 1, "[OCR not available - Models failed to initialize]", "success", none⟩ := by
  rw [pageRes, ht]
  simp only [hs, if_pos rfl, hd, Bool.false_eq_true, if_false, mkResult]
  have h1 : pyStrip "[OCR not available - Models failed to initialize]" =
      "[OCR not available - Models failed to initialize]" := by decide
  have h2 : ("[OCR not available - Models failed to initialize]" : String) ≠ "" := by decide
  rw [h1]
  simp [h2]

theorem pageRes_rasterErr {env : Env} {b : PageB} {i : Nat} {t0 e : String}
    (ht : b.getText = .ok t0) (hs : pyStrip t0 = "")
    (hd : env.doctrInitOk = true) (hr : b.raster = .error e) :
    pageRes env b i = ⟨i + 1, "[OCR Error: " ++ e ++ "]", "success", none⟩ := by
  rw [pageRes, ht]
  simp only [hs, if_pos rfl, hd, if_true, processPageHybrid, hr]
  have h1 : pyStrip ("[OCR Error: " ++ e ++ "]") = "[OCR Error: " ++ e ++ "]" :=
    pyStrip_bracket _ e _ (by decide) (by decide)
  have h2 : ("[OCR Error: " ++ e ++ "]" : String) ≠ "" :=
    bracket_ne_empty _ e _ (by decide)
  rw [mkResult]
  simp [h1, h2]

theorem noEdgeWS_doctrText (d : List (List (List (List String)))) :
    noEdgeWS (doctrText d) = true := noEdgeWS_pyStrip _

theorem pageRes_doctrErr {env : Env} {b : PageB} {i : Nat} {t0 e : String}
    (ht : b.getText = .ok t0) (hs : pyStrip t0 = "")
    (hd : env.doctrInitOk = true) (hr : b.raster = .ok ())
    (hpix : env.pixInitOk = false ∨ ∃ pe, b.pixRec = .error pe)
    (hdr : b.doctrRun = .error e) :
    pageRes env b i = ⟨i + 1, "[DocTR Error: " ++ e ++ "]", "success", none⟩ := by
  have hpd : processWithDoctr b = "[DocTR Error: " ++ e ++ "]" := by
    rw [processWithDoctr, hdr]
  have hmark : pyStrip ("[DocTR Error: " ++ e ++ "]") = "[DocTR Error: " ++ e ++ "]" :=
    pyStrip_bracket _ e _ (by decide) (by decide)
  have hne : ("[DocTR Error: " ++ e ++ "]" : String) ≠ "" :=
    bracket_ne_empty _ e _ (by decide)
  have hhyb : processPageHybrid env.pixInitOk b = ("[DocTR Error: " ++ e ++ "]", 1) := by
    simp only [processPageHybrid, hr]
    rcases hpix with hp | ⟨pe, hpe⟩
    · simp [hp, hpd, hmark]
    · by_cases hp2 : env.pixInitOk = true
      · simp [hp2, hpe, hpd, hmark]
      · simp [hp2, hpd, hmark]
  rw [pageRes, ht]
  simp only [hs, if_pos rfl, hd, if_true, hhyb]
  rw [mkResult]
  simp [hmark, hne]

theorem pageRes_pixFallback {env : Env} {b : PageB} {i : Nat} {t0 pe : String}
    {d : List (List (List (List String)))}
    (ht : b.getText = .ok t0) (hs : pyStrip t0 = "")
    (hd : env.doctrInitOk = true) (hr : b.raster = .ok ())
    (hpt : env.pixInitOk = true) (hpe : b.pixRec = .error pe)
    (hdo : b.doctrRun = .ok d) :
    pageRes env b i =
      ⟨i + 1, doctrText d, if doctrText d = "" then "empty" else "success", none⟩ := by
  have hpd : processWithDoctr b = doctrText d := by
    rw [processWithDoctr, hdo]
  have hstr : pyStrip (doctrText d) = doctrText d :=
    pyStrip_eq_self (noEdgeWS_doctrText d)
  have hhyb : processPageHybrid env.pixInitOk b = (doctrText d, 1) := by
    simp only [processPageHybrid, hr]
    simp [hpt, hpe, hpd, hstr]
  rw [pageRes, ht]
  simp only [hs, if_pos rfl, hd, if_true, hhyb]
  rw [mkResult, hstr]

theorem extractRes_length (env : Env) (pages : List PageB) :
    (extractRes env pages).length = pages.length := by
  rw [extractRes, List.length_map, List.length_range]

theorem extractRes_getD {env : Env} {pages : List PageB} {i : Nat}
    (h : i < pages.length) :
    (extractRes env pages).getD i dummyResult =
      pageRes env (pages.getD i defaultPage) i := by
  rw [extractRes, List.getD_eq_getElem?_getD, List.getElem?_map, List.getElem?_range h]
  rfl

theorem extractRes_map_page (env : Env) (pages : List PageB) :
    (extractRes env pages).map (fun r => r.page) = List.range' 1 pages.length := by
  rw [extractRes, List.map_map, List.range'_eq_map_range]
  refine List.map_congr_left ?_
  intro a _
  show (pageRes env (pages.getD a defaultPage) a).page = 1 + a
  rw [pageRes_page]
  omega

/-! ### Every returned text is stripped (used by C10) -/

theorem runPage_text_noEdge {env : Env} {b : PageB} {i : Nat} {s : OcrState}
    {r : PageResult} (h : (runPage env b i s).r = .ok r) :
    noEdgeWS r.text = true := by
  rw [runPage.eq_def] at h
  rcases ht : b.getText with e | t0 <;> rw [ht] at h
  · simp at h
  · dsimp only at h
    by_cases hs : pyStrip t0 = ""
    · rw [if_pos hs] at h
      split at h <;> split at h <;> split at h <;>
        (injection h with h2; rw [← h2]; exact noEdgeWS_mkResult _ _)
    · rw [if_neg hs] at h
      injection h with h2
      rw [← h2]
      exact noEdgeWS_mkResult _ _

theorem runIdxs_text_noEdge {env : Env} {pages : List PageB} :
    ∀ (idxs : List Nat) (s : OcrState) (rs : List PageResult),
      (runIdxs env pages idxs s).r = .ok rs → ∀ r ∈ rs, noEdgeWS r.text = true := by
  intro idxs
  induction idxs with
  | nil =>
    intro s rs h r hr
    rw [runIdxs] at h
    injection h with h2
    rw [← h2] at hr
    simp at hr
  | cons i rest ih =>
    intro s rs h r hr
    rcases hp : runPage env (pages.getD i defaultPage) i s with ⟨r1, s1, g1, o1⟩
    rw [runIdxs, hp] at h
    rcases r1 with e1 | rr
    · simp at h
    · dsimp only at h
      rcases hrec : runIdxs env pages rest s1 with ⟨r2, s2, g2, o2⟩
      rw [hrec] at h
      rcases r2 with e2 | rs2
      · simp at h
      · dsimp only at h
        injection h with h2
        rw [← h2] at hr
        rcases List.mem_cons.mp hr with h3 | h3
        · subst h3
          exact runPage_text_noEdge (by rw [hp])
        · exact ih s1 rs2 (by rw [hrec]) r h3

theorem runBatches_text_noEdge {env : Env} {pages : List PageB} :
    ∀ (bs : List (List Nat)) (s : OcrState) (rs : List PageResult),
      (runBatches env pages bs s).r = .ok rs → ∀ r ∈ rs, noEdgeWS r.text = true := by
  intro bs
  induction bs with
  | nil =>
    intro s rs h r hr
    rw [runBatches] at h
    injection h with h2
    rw [← h2] at hr
    simp at hr
  | cons idxs rest ih =>
    intro s rs h r hr
    rcases hidx : runIdxs env pages idxs s with ⟨r1, s1, g1, o1⟩
    rw [runBatches, hidx] at h
    rcases r1 with e1 | rs1
    · simp at h
    · dsimp only at h
      rcases hrec : runBatches env pages rest s1 with ⟨r2, s2, g2, o2⟩
      rw [hrec] at h
      rcases r2 with e2 | rs2
      · simp at h
      · dsimp only at h
        injection h with h2
        rw [← h2] at hr
        rcases List.mem_append.mp hr with h3 | h3
        · exact runIdxs_text_noEdge idxs s rs1 (by rw [hidx]) r h3
        · exact ih s1 rs2 (by rw [hrec]) r h3

theorem extract_text_noEdge {env : Env} {openR : Except String (List PageB)}
    {rs : List PageResult}
    (h : (extract_text_from_pdf_bytes env openR).result = .ok rs) :
    ∀ r ∈ rs, noEdgeWS r.text = true := by
  rcases openR with e | pages
  · rw [extract_text_from_pdf_bytes] at h
    simp at h
  · rw [extract_text_from_pdf_bytes] at h
    rcases hrb : runBatches env pages (batchesOf pages.length BATCH_SIZE) initState
      with ⟨r1, s1, g1, o1⟩
    rw [hrb] at h
    rcases r1 with e1 | rs1
    · simp at h
    · dsimp only at h
      injection h with h2
      subst h2
      exact runBatches_text_noEdge _ _ rs1 (by rw [hrb])

/-! ### The Markdown formatter (`markdown_formatter/formatter.py`) -/

/-- The chunks appended for one result between the page heading and the
separator: the text (line 33), the error note (line 37) or the
no-text note (line 39). -/
def bodyChunks (r : PageResult) : List String :=
  if r.status = "success" ∧ r.text ≠ "" then [r.text, "\n\n"]
  else if r.status = "error" then
    ["*Error extracting text: " ++ r.error.getD "Unknown error" ++ "*\n\n"]
  else ["*No text extracted*\n\n"]

/-- All chunks appended for one result (lines 30–41 of `formatter.py`). -/
def pageBlock (r : PageResult) : List String :=
  ("## Page " ++ toString r.page ++ "\n\n") :: (bodyChunks r ++ ["---\n\n"])

/-- The `markdown_lines` list built by `format_to_markdown`. -/
def formatChunks (ocr_results : List PageResult) (title : String) : List String :=
  ("# " ++ title ++ "\n\n") :: (ocr_results.map pageBlock).flatten

/-- `format_to_markdown`: the final `"".join(markdown_lines)`. -/
def format_to_markdown (ocr_results : List PageResult) (title : String) : String :=
  String.join (formatChunks ocr_results title)

theorem pageBlock_head? (r : PageResult) :
    (pageBlock r).head? = some ("## Page " ++ toString r.page ++ "\n\n") := rfl

theorem pageBlock_getLast? (r : PageResult) :
    (pageBlock r).getLast? = some "---\n\n" := by
  rw [pageBlock, ← List.cons_append, List.getLast?_concat]

/-! ### The remote-inference variant (`app/main_alternative.py`) -/

/-- The observed HTTP response of the remote inference endpoint:
status code, body text, and the `generated_text` field of the parsed
JSON body (`none` when the field is missing). -/
structure HResp where
  statusCode : Nat
  text : String
  generatedText : Option String
deriving DecidableEq

/-- `ocr_image_bytes` lines 22–31: on HTTP 200 return
`response.json().get("generated_text", "")`; otherwise raise
`Exception(f"HF API error: {response.text}")`. -/
def ocr_image_bytes (r : HResp) : Except String String :=
  if r.statusCode = 200 then .ok (r.generatedText.getD "")
  else .error ("HF API error: " ++ r.text)

/-- The chunks appended for one page by the loop of `pdf_to_markdown`
(lines 99–106): heading and text on success, heading and
`*Error: …*` note when `ocr_image_bytes` raises. -/
def pageChunksAlt (i : Nat) (r : HResp) : List String :=
  match ocr_image_bytes r with
  | .ok t => ["## Page " ++ toString (i + 1) ++ "\n\n", t, "\n\n---\n\n"]
  | .error e => ["## Page " ++ toString (i + 1) ++ "\n\n", "*Error: " ++ e ++ "*\n\n---\n\n"]

/-- The `markdown_content` list built by `pdf_to_markdown`
(lines 87–106), one page's rasterised bytes mapping to one response. -/
def pdf_to_markdown_chunks (resps : List HResp) : List String :=
  "# JEE Question Bank\n\n" :: (resps.enum.map fun p => pageChunksAlt p.1 p.2).flatten

/-- The final markdown written by `pdf_to_markdown`:
`"".join(markdown_content)`. -/
def pdf_to_markdown (resps : List HResp) : String :=
  String.join (pdf_to_markdown_chunks resps)

theorem leadMatch_refl : ∀ l : List Char, leadMatch l l = true := by
  intro l
  induction l with
  | nil => rfl
  | cons a as ih => simp [leadMatch, ih]

theorem hasSub_refl (l : List Char) : hasSub l l = true := by
  cases l with
  | nil => rfl
  | cons a as => simp [hasSub, leadMatch_refl]

theorem hasSub_append_left (n : List Char) :
    ∀ pre l : List Char, hasSub n l = true → hasSub n (pre ++ l) = true := by
  intro pre
  induction pre with
  | nil => intro l h; exact h
  | cons c cs ih =>
    intro l h
    rw [List.cons_append, hasSub]
    simp [ih l h]

theorem extractRes_getElem {env : Env} {pages : List PageB} {i : Nat}
    (h : i < (extractRes env pages).length) :
    (extractRes env pages)[i] = pageRes env (pages.getD i defaultPage) i := by
  have h2 : i < pages.length := by
    rw [extractRes_length] at h
    exact h
  calc (extractRes env pages)[i]
      = (extractRes env pages).getD i dummyResult := by
        rw [List.getD_eq_getElem?_getD, List.getElem?_eq_getElem h]
        rfl
    _ = pageRes env (pages.getD i defaultPage) i := extractRes_getD h2

/-! ### Claims -/

/-- Claim C1: for every document with N pages (on the spec's contract
that the direct-text probe itself has no failure mode), the extraction
pipeline returns exactly N PageResults whose `page` fields form the
sequence `1..N` in order, for every behaviour of the rasteriser and OCR
backends — i.e. regardless of how many individual pages fail. -/
theorem C1_extract_page_sequence (env : Env) (pages : List PageB)
    (hA : ∀ b ∈ pages, isOkE b.getText = true) :
    ∃ rs, (extract_text_from_pdf_bytes env (.ok pages)).result = .ok rs ∧
      rs.length = pages.length ∧
      rs.map (fun r => r.page) = List.range' 1 pages.length := by
  refine ⟨extractRes env pages, ?_, extractRes_length env pages, extractRes_map_page env pages⟩
  rw [extract_ok hA]

/-- Witness for C1 on a 3-page document whose second page fails to
rasterise and whose third page fails in both OCR backends. -/
def c1pages : List PageB :=
  [⟨.ok "hello", .ok (), .ok "", .ok []⟩,
   ⟨.ok "", .error "render fail", .ok "", .ok []⟩,
   ⟨.ok "", .ok (), .error "pix fail", .error "doctr fail"⟩]

theorem C1_witness :
    (∀ b ∈ c1pages, isOkE b.getText = true) ∧
      ∃ rs, (extract_text_from_pdf_bytes ⟨true, true⟩ (.ok c1pages)).result = .ok rs ∧
        rs.length = c1pages.length ∧
        rs.map (fun r => r.page) = List.range' 1 c1pages.length :=
  ⟨by decide, C1_extract_page_sequence ⟨true, true⟩ c1pages (by decide)⟩

/-- Claim C2, counterexample: a page whose rasterisation fails is
recorded with `status = "success"` (the bracketed marker is non-empty
text) and no error field at all — not `status = "error"` with an error
message as the claim states. -/
def c2page : PageB := ⟨.ok "", .error "cannot render page", .ok "", .ok []⟩

theorem C2_counterexample :
    c2page.raster = .error "cannot render page" ∧
    (extract_text_from_pdf_bytes ⟨true, false⟩ (.ok [c2page])).result =
      .ok [⟨1, "[OCR Error: cannot render page]", "success", none⟩] ∧
    ("success" : String) ≠ "error" := by decide

/-- Claim C2 as amended: for every page requiring OCR, a rasterisation
failure is recorded with the marker `[OCR Error: <message>]` embedded in
`text`; a failure of the terminal OCR backend call (the DocTR run
raising, reached directly or as the fallback after a Pix2Text failure)
is recorded with `[DocTR Error: <message>]`; in both cases
`status = "success"` (the marker is non-empty text) and there is no
error field, and the remaining pages are still processed (one result per
page). A Pix2Text failure whose DocTR fallback succeeds is masked: the
fallback text is recorded with no marker. -/
theorem C2_page_failure_markers (env : Env) (pages : List PageB) (i : Nat) (t0 : String)
    (hA : ∀ b ∈ pages, isOkE b.getText = true)
    (hd : env.doctrInitOk = true)
    (hi : i < pages.length)
    (ht : (pages.getD i defaultPage).getText = .ok t0)
    (hs : pyStrip t0 = "") :
    ∃ rs, (extract_text_from_pdf_bytes env (.ok pages)).result = .ok rs ∧
      rs.length = pages.length ∧
      (∀ e, (pages.getD i defaultPage).raster = .error e →
        rs.getD i dummyResult = ⟨i + 1, "[OCR Error: " ++ e ++ "]", "success", none⟩) ∧
      (∀ e, (pages.getD i defaultPage).raster = .ok () →
        (env.pixInitOk = false ∨ ∃ pe, (pages.getD i defaultPage).pixRec = .error pe) →
        (pages.getD i defaultPage).doctrRun = .error e →
        rs.getD i dummyResult = ⟨i + 1, "[DocTR Error: " ++ e ++ "]", "success", none⟩) ∧
      (∀ d pe, (pages.getD i defaultPage).raster = .ok () →
        env.pixInitOk = true →
        (pages.getD i defaultPage).pixRec = .error pe →
        (pages.getD i defaultPage).doctrRun = .ok d →
        rs.getD i dummyResult =
          ⟨i + 1, doctrText d, if doctrText d = "" then "empty" else "success", none⟩) := by
  refine ⟨extractRes env pages, by rw [extract_ok hA], extractRes_length env pages,
    ?_, ?_, ?_⟩
  · intro e hr
    rw [extractRes_getD hi, pageRes_rasterErr ht hs hd hr]
  · intro e hr hpix hdr
    rw [extractRes_getD hi, pageRes_doctrErr ht hs hd hr hpix hdr]
  · intro d pe hr hpt hpe hdo
    rw [extractRes_getD hi, pageRes_pixFallback ht hs hd hr hpt hpe hdo]

/-- A page whose Pix2Text call and DocTR fallback both raise. -/
def c2bpage : PageB := ⟨.ok "", .ok (), .error "pix blew up", .error "doctr blew up"⟩

theorem C2_witness :
    (c2bpage.getText = .ok "" ∧ pyStrip "" = "" ∧ c2bpage.raster = .ok () ∧
        c2bpage.pixRec = .error "pix blew up" ∧ c2bpage.doctrRun = .error "doctr blew up") ∧
      ∃ rs, (extract_text_from_pdf_bytes ⟨true, true⟩ (.ok [c2bpage])).result = .ok rs ∧
        rs.length = [c2bpage].length ∧
        (∀ e, ([c2bpage].getD 0 defaultPage).raster = .error e →
          rs.getD 0 dummyResult = ⟨0 + 1, "[OCR Error: " ++ e ++ "]", "success", none⟩) ∧
        (∀ e, ([c2bpage].getD 0 defaultPage).raster = .ok () →
          ((⟨true, true⟩ : Env).pixInitOk = false ∨
            ∃ pe, ([c2bpage].getD 0 defaultPage).pixRec = .error pe) →
          ([c2bpage].getD 0 defaultPage).doctrRun = .error e →
          rs.getD 0 dummyResult = ⟨0 + 1, "[DocTR Error: " ++ e ++ "]", "success", none⟩) ∧
        (∀ d pe, ([c2bpage].getD 0 defaultPage).raster = .ok () →
          (⟨true, true⟩ : Env).pixInitOk = true →
          ([c2bpage].getD 0 defaultPage).pixRec = .error pe →
          ([c2bpage].getD 0 defaultPage).doctrRun = .ok d →
          rs.getD 0 dummyResult =
            ⟨0 + 1, doctrText d, if doctrText d = "" then "empty" else "success", none⟩) :=
  ⟨⟨rfl, by decide, rfl, rfl, rfl⟩,
    C2_page_failure_markers ⟨true, true⟩ [c2bpage] 0 ""
      (by decide) rfl (by decide) rfl (by decide)⟩

/-- Claim C3, counterexample: a page whose embedded text is the
non-empty string `" "` still enters the OCR branch (model
initialisation etc.), because the code tests `text.strip()`, not the
embedded text itself. -/
def c3page : PageB := ⟨.ok " ", .ok (), .ok "", .ok []⟩

theorem C3_counterexample :
    c3page.getText = .ok " " ∧ (" " : String) ≠ "" ∧
    (extract_text_from_pdf_bytes ⟨false, false⟩ (.ok [c3page])).ocrCount = 1 ∧
    (1 : Nat) ≠ 0 := by decide

/-- Claim C3 as amended: for every page whose embedded text is non-empty
after whitespace-stripping, the pipeline sets that page's status to
`success` with the stripped embedded text, and the page does not enter
the OCR branch (no model initialisation, rasterisation or recognition
call); the pipeline's OCR-invocation count is the sum of the per-page
branch flags, to which such a page contributes nothing. -/
theorem C3_direct_text_short_circuit (env : Env) (pages : List PageB) (i : Nat) (t0 : String)
    (hA : ∀ b ∈ pages, isOkE b.getText = true)
    (hi : i < pages.length)
    (ht : (pages.getD i defaultPage).getText = .ok t0)
    (hs : pyStrip t0 ≠ "") :
    ∃ rs, (extract_text_from_pdf_bytes env (.ok pages)).result = .ok rs ∧
      rs.getD i dummyResult = ⟨i + 1, pyStrip t0, "success", none⟩ ∧
      pageOcr (pages.getD i defaultPage) = false ∧
      (extract_text_from_pdf_bytes env (.ok pages)).ocrCount =
        ((List.range pages.length).map
          fun j => (pageOcr (pages.getD j defaultPage)).toNat).sum := by
  refine ⟨extractRes env pages, ?_, ?_, ?_, ?_⟩
  · rw [extract_ok hA]
  · rw [extractRes_getD hi, pageRes_direct ht hs]
  · rw [pageOcr, ht]
    simp [hs]
  · rw [extract_ok hA]
    rfl

def c3wpage : PageB := ⟨.ok "Hello world", .ok (), .ok "", .ok []⟩

theorem C3_witness :
    (c3wpage.getText = .ok "Hello world" ∧ pyStrip "Hello world" ≠ "") ∧
      ∃ rs, (extract_text_from_pdf_bytes ⟨false, false⟩ (.ok [c3wpage])).result = .ok rs ∧
        rs.getD 0 dummyResult = ⟨0 + 1, pyStrip "Hello world", "success", none⟩ ∧
        pageOcr ([c3wpage].getD 0 defaultPage) = false ∧
        (extract_text_from_pdf_bytes ⟨false, false⟩ (.ok [c3wpage])).ocrCount =
          ((List.range [c3wpage].length).map
            fun j => (pageOcr ([c3wpage].getD j defaultPage)).toNat).sum :=
  ⟨⟨rfl, by decide⟩,
    C3_direct_text_short_circuit ⟨false, false⟩ [c3wpage] 0 "Hello world"
      (by decide) (by decide) rfl (by decide)⟩

/-- Claim C4, counterexample: a page with no embedded text whose
backends are all unavailable gets the placeholder text with
`status = "success"` (the placeholder is non-empty), not `empty` or
`error` as the claim states. -/
def c4page : PageB := ⟨.ok "", .ok (), .ok "", .ok []⟩

theorem C4_counterexample :
    (extract_text_from_pdf_bytes ⟨false, false⟩ (.ok [c4page])).result =
      .ok [⟨1, "[OCR not available - Models failed to initialize]", "success", none⟩] ∧
    ("success" : String) ≠ "empty" ∧ ("success" : String) ≠ "error" := by decide

/-- Claim C4 as amended: for every page with no embedded text, when all
configured backends fail to initialise, the pipeline returns normally
(no exception) with that page's PageResult carrying the recognisable
placeholder `[OCR not available - Models failed to initialize]` as text
and `status = "success"`. -/
theorem C4_backends_unavailable_placeholder (env : Env) (pages : List PageB) (i : Nat) (t0 : String)
    (hA : ∀ b ∈ pages, isOkE b.getText = true)
    (hd : env.doctrInitOk = false)
    (_hp : env.pixInitOk = false)
    (hi : i < pages.length)
    (ht : (pages.getD i defaultPage).getText = .ok t0)
    (hs : pyStrip t0 = "") :
    ∃ rs, (extract_text_from_pdf_bytes env (.ok pages)).result = .ok rs ∧
      rs.length = pages.length ∧
      rs.getD i dummyResult =
        ⟨i + 1, "[OCR not available - Models failed to initialize]", "success", none⟩ := by
  refine ⟨extractRes env pages, ?_, extractRes_length env pages, ?_⟩
  · rw [extract_ok hA]
  · rw [extractRes_getD hi, pageRes_noBackend ht hs hd]

theorem C4_witness :
    (c4page.getText = .ok "" ∧ pyStrip "" = "") ∧
      ∃ rs, (extract_text_from_pdf_bytes ⟨false, false⟩ (.ok [c4page])).result = .ok rs ∧
        rs.length = [c4page].length ∧
        rs.getD 0 dummyResult =
          ⟨0 + 1, "[OCR not available - Models failed to initialize]", "success", none⟩ :=
  ⟨⟨rfl, by decide⟩,
    C4_backends_unavailable_placeholder ⟨false, false⟩ [c4page] 0 ""
      (by decide) rfl rfl (by decide) rfl (by decide)⟩

/-- Claim C5: for N pages and batch size B > 0 the scheduler produces
exactly `ceil(N/B) = (N + B - 1) / B` batches which partition the page
index range `[0, N)` in order with no overlap and no gaps, each of size
B except possibly the last, whose size is `N mod B` (or B when B divides
N). -/
theorem C5_batch_partition (n b : Nat) (hb : 0 < b) :
    (batchesOf n b).length = (n + b - 1) / b ∧
      (batchesOf n b).flatten = List.range n ∧
      ∀ i (h : i < (batchesOf n b).length),
        ((batchesOf n b).get ⟨i, h⟩).length =
          if i + 1 < (batchesOf n b).length then b
          else if n % b = 0 then b else n % b :=
  ⟨batchesOf_length hb, batchesOf_flatten hb, fun i h => batchesOf_size hb i h⟩

theorem C5_witness :
    0 < 5 ∧
      ((batchesOf 7 5).length = (7 + 5 - 1) / 5 ∧
        (batchesOf 7 5).flatten = List.range 7 ∧
        ∀ i (h : i < (batchesOf 7 5).length),
          ((batchesOf 7 5).get ⟨i, h⟩).length =
            if i + 1 < (batchesOf 7 5).length then 5
            else if 7 % 5 = 0 then 5 else 7 % 5) :=
  ⟨by decide, C5_batch_partition 7 5 (by decide)⟩

/-- Claim C6, counterexample: when the remote backend answers page 3
with HTTP 503 and body `Model loading`, the recorded diagnostic is
`*Error: HF API error: Model loading*…` — it contains the response body
but not the HTTP status `503`, contradicting the claim; pages 1–2 are
unaffected. -/
theorem C6_counterexample :
    pdf_to_markdown_chunks
        [⟨200, "ok", some "Text of page one"⟩, ⟨200, "ok", some "Text of page two"⟩,
         ⟨503, "Model loading", none⟩] =
      ["# JEE Question Bank\n\n",
       "## Page 1\n\n", "Text of page one", "\n\n---\n\n",
       "## Page 2\n\n", "Text of page two", "\n\n---\n\n",
       "## Page 3\n\n", "*Error: HF API error: Model loading*\n\n---\n\n"] ∧
    hasSub ("503".data) ("*Error: HF API error: Model loading*\n\n---\n\n").data = false ∧
    hasSub ("Model loading".data)
      ("*Error: HF API error: Model loading*\n\n---\n\n").data = true := by decide

/-- Claim C6 as amended: a non-200 response makes `ocr_image_bytes`
raise `HF API error: <response body>` — a diagnostic containing the
response body but not the HTTP status — and that page's markdown block
embeds exactly this diagnostic, each page's block depending only on its
own response; a 200 response with the generated-text field missing
yields the empty string, not an error. -/
theorem C6_remote_error_diagnostic (r r2 : HResp) (i : Nat)
    (h : r.statusCode ≠ 200) (h1 : r2.statusCode = 200) (h2 : r2.generatedText = none) :
    ocr_image_bytes r = .error ("HF API error: " ++ r.text) ∧
      hasSub r.text.data ("HF API error: " ++ r.text).data = true ∧
      pageChunksAlt i r =
        ["## Page " ++ toString (i + 1) ++ "\n\n",
         "*Error: " ++ ("HF API error: " ++ r.text) ++ "*\n\n---\n\n"] ∧
      ocr_image_bytes r2 = .ok "" := by
  have e1 : ocr_image_bytes r = .error ("HF API error: " ++ r.text) := by
    rw [ocr_image_bytes, if_neg h]
  refine ⟨e1, ?_, ?_, ?_⟩
  · rw [String.data_append]
    exact hasSub_append_left _ _ _ (hasSub_refl _)
  · rw [pageChunksAlt, e1]
  · rw [ocr_image_bytes, if_pos h1, h2]
    rfl

theorem C6_witness :
    ((503 : Nat) ≠ 200 ∧ (200 : Nat) = 200) ∧
      (ocr_image_bytes ⟨503, "Model loading", none⟩ =
          .error ("HF API error: " ++ "Model loading") ∧
        hasSub ("Model loading" : String).data
          ("HF API error: " ++ "Model loading" : String).data = true ∧
        pageChunksAlt 2 ⟨503, "Model loading", none⟩ =
          ["## Page " ++ toString (2 + 1) ++ "\n\n",
           "*Error: " ++ ("HF API error: " ++ "Model loading") ++ "*\n\n---\n\n"] ∧
        ocr_image_bytes ⟨200, "{}", none⟩ = .ok "") :=
  ⟨⟨by decide, rfl⟩,
    C6_remote_error_diagnostic ⟨503, "Model loading", none⟩ ⟨200, "{}", none⟩ 2
      (by decide) rfl rfl⟩

/-- Claim C7: composing the Markdown formatter with extraction (on the
spec's contract that the direct-text probe has no failure mode), the
chunk list is the title chunk followed by one block per page; there are
exactly N blocks, the i-th block starts with the heading `## Page i+1`
(page order) and ends with the horizontal-rule separator. -/
theorem C7_format_headings (env : Env) (pages : List PageB) (title : String)
    (hA : ∀ b ∈ pages, isOkE b.getText = true) :
    ∃ rs, (extract_text_from_pdf_bytes env (.ok pages)).result = .ok rs ∧
      formatChunks rs title = ("# " ++ title ++ "\n\n") :: (rs.map pageBlock).flatten ∧
      (rs.map pageBlock).length = pages.length ∧
      ∀ i (h : i < (rs.map pageBlock).length),
        ((rs.map pageBlock).get ⟨i, h⟩).head? =
            some ("## Page " ++ toString (i + 1) ++ "\n\n") ∧
          ((rs.map pageBlock).get ⟨i, h⟩).getLast? = some "---\n\n" := by
  refine ⟨extractRes env pages, ?_, rfl, ?_, ?_⟩
  · rw [extract_ok hA]
  · rw [List.length_map, extractRes_length]
  · intro i h
    have hi : i < (extractRes env pages).length := by
      rw [List.length_map] at h
      exact h
    constructor
    · rw [List.get_eq_getElem, List.getElem_map, pageBlock_head?, extractRes_getElem hi,
        pageRes_page]
    · rw [List.get_eq_getElem, List.getElem_map, pageBlock_getLast?]

def c7pages : List PageB :=
  [⟨.ok "Alpha", .ok (), .ok "", .ok []⟩,
   ⟨.ok "", .error "bad page", .ok "", .ok []⟩]

theorem C7_witness :
    (∀ b ∈ c7pages, isOkE b.getText = true) ∧
      ∃ rs, (extract_text_from_pdf_bytes ⟨true, true⟩ (.ok c7pages)).result = .ok rs ∧
        formatChunks rs "Doc" = ("# " ++ "Doc" ++ "\n\n") :: (rs.map pageBlock).flatten ∧
        (rs.map pageBlock).length = c7pages.length ∧
        ∀ i (h : i < (rs.map pageBlock).length),
          ((rs.map pageBlock).get ⟨i, h⟩).head? =
              some ("## Page " ++ toString (i + 1) ++ "\n\n") ∧
            ((rs.map pageBlock).get ⟨i, h⟩).getLast? = some "---\n\n" :=
  ⟨by decide, C7_format_headings ⟨true, true⟩ c7pages "Doc" (by decide)⟩

/-- Claim C8, counterexample: a successfully opened one-page document
whose `page.get_text()` call raises terminates extraction by exception
with the document left open (`closed = false`) — there is no
`try`/`finally` around `pdf_document.close()` in the source. -/
def c8page : PageB := ⟨.error "page tree damaged", .ok (), .ok "", .ok []⟩

theorem C8_counterexample :
    (extract_text_from_pdf_bytes ⟨true, true⟩ (.ok [c8page])).result =
        .error "page tree damaged" ∧
      (extract_text_from_pdf_bytes ⟨true, true⟩ (.ok [c8page])).closed = false ∧
      false ≠ true := by decide

/-- Claim C8 as amended: for every document that opens successfully, the
document is closed exactly when extraction returns normally; on every
path where an exception escapes during batching the document is left
open. -/
theorem C8_close_iff_normal_return (env : Env) (pages : List PageB) :
    (extract_text_from_pdf_bytes env (.ok pages)).closed =
      isOkE (extract_text_from_pdf_bytes env (.ok pages)).result := by
  rw [extract_text_from_pdf_bytes]
  rcases hrb : runBatches env pages (batchesOf pages.length BATCH_SIZE) initState
    with ⟨r, st, g, o⟩
  rcases r with e | rs <;> rfl

/-- Claim C9, counterexample: on the claim's own 7-page, batch-size-5
scenario with image-only pages (hybrid OCR succeeding on each), the
pipeline triggers `gc.collect()` 9 times — once per batch (2) plus once
per page inside `_process_page_hybrid` (7) — not exactly twice. -/
def c9page : PageB := ⟨.ok "", .ok (), .ok "", .ok [[[["lorem"]]]]⟩

theorem C9_counterexample :
    (extract_text_from_pdf_bytes ⟨true, false⟩
        (.ok (List.replicate 7 c9page))).gcCount = 9 ∧
      (batchesOf 7 BATCH_SIZE).length = 2 ∧ (9 : Nat) ≠ 2 := by decide

/-- Claim C9 as amended: the pipeline triggers one explicit
garbage-collection per completed batch plus one per page processed by
the hybrid OCR path whose rasterisation succeeds (the `gc.collect()`
at line 123); for documents where no page needs OCR the count is
exactly the number of batches, `ceil(N/5)`. -/
theorem C9_gc_per_batch_and_page (env : Env) (pages : List PageB)
    (hA : ∀ b ∈ pages, isOkE b.getText = true) :
    (extract_text_from_pdf_bytes env (.ok pages)).gcCount =
      (batchesOf pages.length BATCH_SIZE).length +
        ((List.range pages.length).map
          fun i => pageGc env (pages.getD i defaultPage)).sum := by
  rw [extract_ok hA]
  rfl

def c9dpages : List PageB := List.replicate 7 ⟨.ok "text", .ok (), .ok "", .ok []⟩

theorem C9_witness :
    (∀ b ∈ c9dpages, isOkE b.getText = true) ∧
      (extract_text_from_pdf_bytes ⟨true, false⟩ (.ok c9dpages)).gcCount =
        (batchesOf c9dpages.length BATCH_SIZE).length +
          ((List.range c9dpages.length).map
            fun i => pageGc ⟨true, false⟩ (c9dpages.getD i defaultPage)).sum :=
  ⟨by decide, C9_gc_per_batch_and_page ⟨true, false⟩ c9dpages (by decide)⟩

/-- Claim C10: every PageResult returned by
`extract_text_from_pdf_bytes` has a whitespace-stripped `text` field (no
leading or trailing whitespace), on every path: direct text, OCR output,
and placeholder or error-marker text alike. -/
theorem C10_texts_stripped (env : Env) (openR : Except String (List PageB))
    (rs : List PageResult)
    (h : (extract_text_from_pdf_bytes env openR).result = .ok rs) :
    ∀ r ∈ rs, noEdgeWS r.text = true :=
  extract_text_noEdge h

def c10pages : List PageB :=
  [⟨.ok "  hi  ", .ok (), .ok "", .ok []⟩,
   ⟨.ok " ", .error "boom r", .ok "", .ok []⟩]

theorem C10_witness :
    ((extract_text_from_pdf_bytes ⟨true, false⟩ (.ok c10pages)).result =
        .ok [⟨1, "hi", "success", none⟩,
             ⟨2, "[OCR Error: boom r]", "success", none⟩]) ∧
      ∀ r ∈ [(⟨1, "hi", "success", none⟩ : PageResult),
             ⟨2, "[OCR Error: boom r]", "success", none⟩], noEdgeWS r.text = true :=
  ⟨by decide,
    C10_texts_stripped ⟨true, false⟩ (.ok c10pages) _ (by decide)⟩

end OcrPipeline
